import Mathlib

/-!
Shallow embedding of the guessing-game engine
(`backend/app/services/wordle_engine.py`) and proofs about the claims of
its specification.

Python dict-shaped player records become a structure of typed slots.  A
slot that the source reads with `d.get(key, default)` is modelled as a
three-state field (`absent`, the Python value `None`, or a proper value),
because `get` yields the default only when the key is absent, not when the
stored value is `None`.  Slots read with `d.get(key)` (no default) merge
`absent` and `None` and are modelled as `Option`.  Python `float` values
are modelled as `Rat`: the engine only compares them with `==` and `<`,
never computes with them, so order and equality transfer exactly.
Fallible code paths (attribute access on `None`, ordering against `None`)
return `Except PyErr`.
-/

inductive PyErr where
  | valueError (msg : String)
  | attributeError
  | typeError
deriving DecidableEq, Repr

inductive PyVal where
  | pynone
  | str (s : String)
  | int (n : Int)
  | rat (q : Rat)
deriving DecidableEq, Repr

inductive SField where
  | absent
  | pynone
  | val (s : String)
deriving DecidableEq, Repr

inductive QField where
  | absent
  | pynone
  | val (q : Rat)
deriving DecidableEq, Repr

def getS : SField → String → Option String
  | .absent, d => some d
  | .pynone, _ => none
  | .val s, _ => some s

def getQ : QField → Rat → Option Rat
  | .absent, d => some d
  | .pynone, _ => none
  | .val q, _ => some q

def lowerStr (s : String) : String :=
  ⟨s.data.map Char.toLower⟩

def upperStr (s : String) : String :=
  ⟨s.data.map Char.toUpper⟩

def truthyLower : Option String → String
  | none => ""
  | some s => if s = "" then "" else lowerStr s

def truthyUpper : Option String → String
  | none => ""
  | some s => if s = "" then "" else upperStr s

def pyLower : Option String → Except PyErr String
  | none => .error .attributeError
  | some s => .ok (lowerStr s)

def isSubstrList (needle : List Char) : List Char → Bool
  | [] => needle.isEmpty
  | c :: t => needle.isPrefixOf (c :: t) || isSubstrList needle t

def substrIn (needle hay : String) : Bool :=
  isSubstrList needle.data hay.data

def pyEqQ : Option Rat → Option Rat → Bool
  | none, none => true
  | some a, some b => a = b
  | _, _ => false

def pyLtQ : Option Rat → Option Rat → Except PyErr Bool
  | some a, some b => .ok (a < b)
  | _, _ => .error .typeError

def splitOnDash : List Char → List (List Char)
  | [] => [[]]
  | c :: rest =>
    let r := splitOnDash rest
    if c = '-' then [] :: r
    else
      match r with
      | h :: t => (c :: h) :: t
      | [] => [[c]]

def undigits : List Char → Bool
  | [] => true
  | '_' :: c :: rest => c.isDigit && undigits rest
  | c :: rest => c.isDigit && undigits rest

def pyIntDigits : List Char → Bool
  | [] => false
  | c :: rest => c.isDigit && undigits rest

def digitsVal (l : List Char) : Int :=
  ((l.filter (fun c => c ≠ '_')).foldl (fun a c => a * 10 + (c.toNat - 48)) 0 : Nat)

def trimChars (l : List Char) : List Char :=
  ((l.dropWhile Char.isWhitespace).reverse.dropWhile Char.isWhitespace).reverse

def pyInt (s : String) : Option Int :=
  match trimChars s.data with
  | '+' :: rest => if pyIntDigits rest then some (digitsVal rest) else none
  | '-' :: rest => if pyIntDigits rest then some (-(digitsVal rest)) else none
  | l => if pyIntDigits l then some (digitsVal l) else none

structure Player where
  id : Option Int
  name : Option String
  team : SField
  team_abbreviation : SField
  division : SField
  conference : SField
  age : Option Int
  height : SField
  position : SField
  jersey_number : Option Int
  ppg : QField
deriving DecidableEq, Repr

structure Feedback where
  attr : String
  guessed : PyVal
  target : PyVal
  status : String
deriving DecidableEq, Repr

def pvS : Option String → PyVal
  | none => .pynone
  | some s => .str s

def pvI : Option Int → PyVal
  | none => .pynone
  | some n => .int n

def pvQ : Option Rat → PyVal
  | none => .pynone
  | some q => .rat q

def compare_team (target guessed : Player) : Except PyErr Feedback :=
  let target_team := getS target.team ""
  let guessed_team := getS guessed.team ""
  let target_team_lower := truthyLower target_team
  let guessed_team_lower := truthyLower guessed_team
  if target_team_lower = "" ∨ guessed_team_lower = "" then
    .ok ⟨"team", pvS guessed_team, pvS target_team, "incorrect"⟩
  else if target_team_lower = guessed_team_lower then
    .ok ⟨"team", pvS guessed_team, pvS target_team, "correct"⟩
  else do
    let target_abbrev ← pyLower (getS target.team_abbreviation "")
    let guessed_abbrev ← pyLower (getS guessed.team_abbreviation "")
    if target_abbrev ≠ "" ∧ guessed_abbrev ≠ "" ∧ target_abbrev = guessed_abbrev then
      pure ⟨"team", pvS guessed_team, pvS target_team, "correct"⟩
    else
      pure ⟨"team", pvS guessed_team, pvS target_team, "incorrect"⟩

def compare_division (target guessed : Player) : Feedback :=
  let target_div := getS target.division ""
  let guessed_div := getS guessed.division ""
  let t := truthyLower target_div
  let g := truthyLower guessed_div
  if t = "" ∨ g = "" then ⟨"division", pvS guessed_div, pvS target_div, "incorrect"⟩
  else if t = g then ⟨"division", pvS guessed_div, pvS target_div, "correct"⟩
  else ⟨"division", pvS guessed_div, pvS target_div, "incorrect"⟩

def compare_conference (target guessed : Player) : Feedback :=
  let target_conf := getS target.conference ""
  let guessed_conf := getS guessed.conference ""
  let t := truthyLower target_conf
  let g := truthyLower guessed_conf
  if t = "" ∨ g = "" then ⟨"conference", pvS guessed_conf, pvS target_conf, "incorrect"⟩
  else if t = g then ⟨"conference", pvS guessed_conf, pvS target_conf, "correct"⟩
  else ⟨"conference", pvS guessed_conf, pvS target_conf, "incorrect"⟩

def compare_age (target guessed : Player) : Feedback :=
  let target_age := target.age
  let guessed_age := guessed.age
  match target_age, guessed_age with
  | none, _ => ⟨"age", pvI guessed_age, pvI target_age, "incorrect"⟩
  | _, none => ⟨"age", pvI guessed_age, pvI target_age, "incorrect"⟩
  | some t, some g =>
    if t = g then ⟨"age", pvI guessed_age, pvI target_age, "correct"⟩
    else if g < t then ⟨"age", pvI guessed_age, pvI target_age, "higher"⟩
    else ⟨"age", pvI guessed_age, pvI target_age, "lower"⟩

def height_to_inches (s : String) : Option Int :=
  match splitOnDash s.data with
  | [a, b] =>
    match pyInt ⟨a⟩, pyInt ⟨b⟩ with
    | some feet, some inches => some (feet * 12 + inches)
    | _, _ => none
  | _ => none

def compare_height (target guessed : Player) : Feedback :=
  let target_height := getS target.height ""
  let guessed_height := getS guessed.height ""
  match target_height, guessed_height with
  | none, _ => ⟨"height", pvS guessed_height, pvS target_height, "incorrect"⟩
  | _, none => ⟨"height", pvS guessed_height, pvS target_height, "incorrect"⟩
  | some th, some gh =>
    if th = "" ∨ gh = "" then ⟨"height", pvS guessed_height, pvS target_height, "incorrect"⟩
    else if th = gh then ⟨"height", pvS guessed_height, pvS target_height, "correct"⟩
    else
      match height_to_inches th, height_to_inches gh with
      | none, _ => ⟨"height", pvS guessed_height, pvS target_height, "incorrect"⟩
      | _, none => ⟨"height", pvS guessed_height, pvS target_height, "incorrect"⟩
      | some ti, some gi =>
        if gi = ti then ⟨"height", pvS guessed_height, pvS target_height, "correct"⟩
        else if gi < ti then ⟨"height", pvS guessed_height, pvS target_height, "higher"⟩
        else ⟨"height", pvS guessed_height, pvS target_height, "lower"⟩

def positionGroup (s : String) : Option String :=
  if substrIn "PG" s ∨ substrIn "SG" s ∨ substrIn "G" s then some "guard"
  else if substrIn "SF" s ∨ substrIn "PF" s ∨ substrIn "F" s then some "forward"
  else if substrIn "C" s then some "center"
  else none

def compare_position (target guessed : Player) : Feedback :=
  let target_pos := getS target.position ""
  let guessed_pos := getS guessed.position ""
  let target_pos_upper := truthyUpper target_pos
  let guessed_pos_upper := truthyUpper guessed_pos
  if target_pos_upper = "" ∨ guessed_pos_upper = "" then
    ⟨"position", pvS guessed_pos, pvS target_pos, "incorrect"⟩
  else if target_pos_upper = guessed_pos_upper then
    ⟨"position", pvS guessed_pos, pvS target_pos, "correct"⟩
  else
    match positionGroup target_pos_upper, positionGroup guessed_pos_upper with
    | some tg, some gg =>
      if tg = gg then ⟨"position", pvS guessed_pos, pvS target_pos, "partial"⟩
      else ⟨"position", pvS guessed_pos, pvS target_pos, "incorrect"⟩
    | _, _ => ⟨"position", pvS guessed_pos, pvS target_pos, "incorrect"⟩

def compare_jersey (target guessed : Player) : Feedback :=
  let target_jersey := target.jersey_number
  let guessed_jersey := guessed.jersey_number
  match target_jersey, guessed_jersey with
  | none, _ => ⟨"jersey_number", pvI guessed_jersey, pvI target_jersey, "incorrect"⟩
  | _, none => ⟨"jersey_number", pvI guessed_jersey, pvI target_jersey, "incorrect"⟩
  | some t, some g =>
    if t = g then ⟨"jersey_number", pvI guessed_jersey, pvI target_jersey, "correct"⟩
    else if g < t then ⟨"jersey_number", pvI guessed_jersey, pvI target_jersey, "higher"⟩
    else ⟨"jersey_number", pvI guessed_jersey, pvI target_jersey, "lower"⟩

def compare_ppg (target guessed : Player) : Except PyErr Feedback :=
  let target_ppg := getQ target.ppg 0
  let guessed_ppg := getQ guessed.ppg 0
  if pyEqQ target_ppg guessed_ppg then
    .ok ⟨"ppg", pvQ guessed_ppg, pvQ target_ppg, "correct"⟩
  else do
    let lt ← pyLtQ guessed_ppg target_ppg
    if lt then pure ⟨"ppg", pvQ guessed_ppg, pvQ target_ppg, "higher"⟩
    else pure ⟨"ppg", pvQ guessed_ppg, pvQ target_ppg, "lower"⟩

structure Comparison where
  team : Feedback
  division : Feedback
  conference : Feedback
  age : Feedback
  height : Feedback
  position : Feedback
  jersey_number : Feedback
  ppg : Feedback
deriving DecidableEq, Repr

def compare_players (target guessed : Player) : Except PyErr Comparison := do
  let team ← compare_team target guessed
  let division := compare_division target guessed
  let conference := compare_conference target guessed
  let age := compare_age target guessed
  let height := compare_height target guessed
  let position := compare_position target guessed
  let jersey_number := compare_jersey target guessed
  let ppg ← compare_ppg target guessed
  pure ⟨team, division, conference, age, height, position, jersey_number, ppg⟩

structure SanitizedPlayer where
  id : Option Int
  name : Option String
  team : Option String
  division : Option String
  conference : Option String
  age : Option Int
  height : Option String
  position : Option String
  jersey_number : Option Int
  ppg : Option Rat
deriving DecidableEq, Repr

def sanitize (g : Player) : SanitizedPlayer :=
  ⟨g.id, g.name, getS g.team "", getS g.division "", getS g.conference "",
    g.age, getS g.height "", getS g.position "", g.jersey_number, getQ g.ppg 0⟩

structure GuessResult where
  guessed_player : SanitizedPlayer
  comparison : Comparison
  is_correct : Bool
  guess_number : Nat
deriving DecidableEq, Repr

structure WordleEngine where
  target_player : Player
  season : Option String
  guesses : List GuessResult
  max_guesses : Nat
deriving DecidableEq, Repr

def WordleEngine.init (target : Player) (season : Option String) : WordleEngine :=
  ⟨target, season, [], 8⟩

def make_guess (e : WordleEngine) (guessed_player : Player) :
    Except PyErr GuessResult × WordleEngine :=
  if e.max_guesses ≤ e.guesses.length then
    (.error (.valueError "Maximum guesses reached"), e)
  else
    match compare_players e.target_player guessed_player with
    | .error err => (.error err, e)
    | .ok comparison =>
      let is_correct : Bool := guessed_player.id = e.target_player.id
      let guess_result : GuessResult :=
        ⟨sanitize guessed_player, comparison, is_correct, e.guesses.length + 1⟩
      (.ok guess_result, { e with guesses := e.guesses ++ [guess_result] })

def is_game_over (e : WordleEngine) : Bool :=
  (match e.guesses.getLast? with
    | some r => r.is_correct
    | none => false)
  || decide (e.max_guesses ≤ e.guesses.length)

def is_won (e : WordleEngine) : Bool :=
  match e.guesses.getLast? with
  | some r => r.is_correct
  | none => false

structure GameState where
  target_player_id : Option Int
  target_player_name : Option String
  season : Option String
  guesses : List GuessResult
  guess_count : Nat
  max_guesses : Nat
  is_game_over : Bool
  is_won : Bool
deriving DecidableEq, Repr

def get_game_state (e : WordleEngine) : GameState :=
  ⟨e.target_player.id, e.target_player.name, e.season, e.guesses,
    e.guesses.length, e.max_guesses, is_game_over e, is_won e⟩

def submitAll (e : WordleEngine) : List Player → WordleEngine
  | [] => e
  | g :: gs => submitAll (make_guess e g).2 gs

def isOkE {α : Type} : Except PyErr α → Bool
  | .ok _ => true
  | .error _ => false

instance {e a : Type} [DecidableEq e] [DecidableEq a] : DecidableEq (Except e a) := fun x y =>
  match x, y with
  | .ok x, .ok y => decidable_of_iff (x = y) (by simp)
  | .error x, .error y => decidable_of_iff (x = y) (by simp)
  | .ok _, .error _ => isFalse (by simp)
  | .error _, .ok _ => isFalse (by simp)

def statusOf : Except PyErr Feedback → Option String
  | .ok fb => some fb.status
  | .error _ => none

inductive Reachable : WordleEngine → Prop where
  | init (target : Player) (season : Option String) :
      Reachable (WordleEngine.init target season)
  | step {e : WordleEngine} {g : Player} {r : GuessResult} {e' : WordleEngine} :
      Reachable e → make_guess e g = (Except.ok r, e') → Reachable e'

def T1 : Player :=
  ⟨some 1, some "a", .val "A", .val "AA", .val "D", .val "E", some 30, .val "6-9", .val "SF",
    some 23, .val 25⟩

def G1 : Player :=
  ⟨some 2, some "b", .val "B", .val "BB", .val "D", .val "E", some 31, .val "6-2", .val "PG",
    some 30, .val 26⟩

def T2 : Player :=
  ⟨some 1, some "t", .val "A", .val "AA", .val "D", .val "E", some 30, .val "6-9", .val "SF",
    some 23, .val 25⟩

def G2 : Player :=
  ⟨some 2, some "g", .val "B", .val "BB", .val "D", .val "E", some 31, .val "6-2", .val "PG",
    some 30, .val 26⟩

def T3 : Player :=
  ⟨some 1, some "t", .val "A", .pynone, .absent, .absent, none, .absent, .absent, none, .absent⟩

def G3 : Player :=
  ⟨some 2, some "g", .val "B", .val "X", .absent, .absent, none, .absent, .absent, none, .absent⟩

def W3t : Player :=
  ⟨some 1, none, .absent, .absent, .absent, .absent, none, .absent, .absent, none, .absent⟩

def W3g : Player :=
  ⟨some 2, none, .absent, .absent, .absent, .absent, none, .absent, .absent, none, .absent⟩

def T4 : Player :=
  ⟨some 1, some "t", .val "A", .val "AA", .val "D", .val "E", some 39, .val "6-9", .val "SF",
    some 23, .val 25⟩

def G4 : Player :=
  ⟨some 2, some "g", .val "B", .val "BB", .val "D", .val "E", some 35, .val "6-2", .val "PG",
    some 30, .val 26⟩

def heightClaimStatus (th gh : String) : String :=
  match height_to_inches th, height_to_inches gh with
  | some ti, some gi =>
    if th = "" ∨ gh = "" then "incorrect"
    else if th = gh ∨ ti = gi then "correct"
    else if gi < ti then "higher"
    else "lower"
  | _, _ => "incorrect"

def T5 : Player :=
  ⟨some 1, some "t", .absent, .absent, .absent, .absent, none, .val "abc", .absent, none,
    .absent⟩

def G5 : Player :=
  ⟨some 2, some "g", .absent, .absent, .absent, .absent, none, .val "abc", .absent, none,
    .absent⟩

def heightAmendedStatus (th gh : String) : String :=
  if th = "" ∨ gh = "" then "incorrect"
  else if th = gh then "correct"
  else
    match height_to_inches th, height_to_inches gh with
    | some ti, some gi =>
      if gi = ti then "correct"
      else if gi < ti then "higher"
      else "lower"
    | _, _ => "incorrect"

def T6 : Player :=
  ⟨some 1, some "t", .absent, .absent, .absent, .absent, none, .absent, .val "", none, .absent⟩

def G6 : Player :=
  ⟨some 2, some "g", .absent, .absent, .absent, .absent, none, .absent, .val "", none, .absent⟩

def G6p : Player :=
  ⟨some 3, some "p", .absent, .absent, .absent, .absent, none, .absent, .val "PF", none,
    .absent⟩

def teamString (p : Player) : String := (getS p.team "").getD ""

def teamAbbrevString (p : Player) : String := (getS p.team_abbreviation "").getD ""

def teamClaimHolds (t g : Player) : Prop :=
  ∀ fb, compare_team t g = Except.ok fb →
    ((fb.status = "correct" ↔
        (lowerStr (teamString t) = lowerStr (teamString g) ∨
          (teamAbbrevString t ≠ "" ∧ teamAbbrevString g ≠ "" ∧
            lowerStr (teamAbbrevString t) = lowerStr (teamAbbrevString g)))) ∧
      ((teamString t = "" ∨ teamString g = "") → fb.status = "incorrect"))

def T7 : Player :=
  ⟨some 1, some "t", .val "", .absent, .absent, .absent, none, .absent, .absent, none, .absent⟩

def G7 : Player :=
  ⟨some 2, some "g", .val "", .absent, .absent, .absent, none, .absent, .absent, none, .absent⟩

def T7w : Player :=
  ⟨some 1, some "t", .val "Lakers", .val "LAL", .absent, .absent, none, .absent, .absent,
    none, .absent⟩

def G7w : Player :=
  ⟨some 2, some "g", .val "LA Lakers", .val "lal", .absent, .absent, none, .absent, .absent,
    none, .absent⟩

theorem error_leaves_state_unchanged (e : WordleEngine) (g : Player) (err : PyErr)
    (h : (make_guess e g).1 = .error err) :
    (make_guess e g).2 = e ∧ (make_guess e g).2.guesses = e.guesses ∧
    (make_guess e g).2.target_player = e.target_player ∧
    (make_guess e g).2.season = e.season ∧
    (make_guess e g).2.max_guesses = e.max_guesses := by
  have h2 : (make_guess e g).2 = e := by
    unfold make_guess at h ⊢
    by_cases hb : e.max_guesses ≤ e.guesses.length
    · simp [hb]
    · simp only [if_neg hb] at h ⊢
      cases hc : compare_players e.target_player g with
      | error err2 => simp [hc]
      | ok c =>
        rw [hc] at h
        simp at h
  exact ⟨h2, by rw [h2], by rw [h2], by rw [h2], by rw [h2]⟩

theorem error_leaves_state_unchanged_witness :
    (make_guess ⟨T1, none, [], 0⟩ G1).2 = ⟨T1, none, [], 0⟩ :=
  (error_leaves_state_unchanged ⟨T1, none, [], 0⟩ G1
    (.valueError "Maximum guesses reached") (by decide)).1

theorem won_session_still_accepts_guess :
    is_game_over ((make_guess (WordleEngine.init T1 none) T1).2) = true ∧
    isOkE ((make_guess ((make_guess (WordleEngine.init T1 none) T1).2) G1).1) = true := by
  decide

theorem budget_exhausted_rejects_all (e : WordleEngine) (g : Player)
    (h : e.max_guesses ≤ e.guesses.length) :
    is_game_over e = true ∧
    (make_guess e g).1 = .error (.valueError "Maximum guesses reached") ∧
    (make_guess e g).2 = e ∧
    ∀ gs : List Player, submitAll e gs = e := by
  refine ⟨?_, ?_, ?_, ?_⟩
  · simp [is_game_over, h]
  · simp [make_guess, h]
  · simp [make_guess, h]
  · intro gs
    induction gs with
    | nil => rfl
    | cons g' gs ih =>
      have hstep : (make_guess e g').2 = e := by simp [make_guess, h]
      simp [submitAll, hstep, ih]

theorem budget_exhausted_rejects_all_witness :
    (make_guess ⟨T1, none, [], 0⟩ G1).1 =
      .error (.valueError "Maximum guesses reached") ∧
    submitAll ⟨T1, none, [], 0⟩ [G1, T1] = ⟨T1, none, [], 0⟩ := by
  have h := budget_exhausted_rejects_all ⟨T1, none, [], 0⟩ G1 (by decide)
  exact ⟨h.2.1, h.2.2.2 [G1, T1]⟩

theorem duplicate_guess_accepted_by_code :
    isOkE (make_guess (WordleEngine.init T2 none) G2).1 = true ∧
    isOkE (make_guess ((make_guess (WordleEngine.init T2 none) G2).2) G2).1 = true ∧
    ((make_guess ((make_guess (WordleEngine.init T2 none) G2).2) G2).2.guesses.map
      (fun r => r.guessed_player.id)) = [some 2, some 2] := by
  decide

theorem compare_raises_on_none_abbreviation :
    compare_players T3 G3 = .error .attributeError := by
  decide

theorem getS_of_ne_pynone {f : SField} (h : f ≠ .pynone) (d : String) :
    ∃ s, getS f d = some s := by
  cases f with
  | absent => exact ⟨d, rfl⟩
  | pynone => exact absurd rfl h
  | val s => exact ⟨s, rfl⟩

theorem getQ_of_ne_pynone {f : QField} (h : f ≠ .pynone) (d : Rat) :
    ∃ q, getQ f d = some q := by
  cases f with
  | absent => exact ⟨d, rfl⟩
  | pynone => exact absurd rfl h
  | val q => exact ⟨q, rfl⟩

theorem compare_team_total {t g : Player} (hta : t.team_abbreviation ≠ .pynone)
    (hga : g.team_abbreviation ≠ .pynone) :
    ∃ fb, compare_team t g = .ok fb := by
  obtain ⟨ta, hta'⟩ := getS_of_ne_pynone hta ""
  obtain ⟨ga, hga'⟩ := getS_of_ne_pynone hga ""
  simp only [compare_team]
  split
  · exact ⟨_, rfl⟩
  · split
    · exact ⟨_, rfl⟩
    · simp only [hta', hga', pyLower, bind, Except.bind]
      split <;> exact ⟨_, rfl⟩

theorem compare_ppg_total {t g : Player} (htp : t.ppg ≠ .pynone) (hgp : g.ppg ≠ .pynone) :
    ∃ fb, compare_ppg t g = .ok fb := by
  obtain ⟨tp, htp'⟩ := getQ_of_ne_pynone htp 0
  obtain ⟨gp, hgp'⟩ := getQ_of_ne_pynone hgp 0
  simp only [compare_ppg]
  split
  · exact ⟨_, rfl⟩
  · simp only [htp', hgp', pyLtQ, bind, Except.bind]
    split <;> exact ⟨_, rfl⟩

theorem compare_total_on_typed_records (t g : Player)
    (hta : t.team_abbreviation ≠ .pynone) (hga : g.team_abbreviation ≠ .pynone)
    (htp : t.ppg ≠ .pynone) (hgp : g.ppg ≠ .pynone) :
    ∃ c, compare_players t g = .ok c := by
  obtain ⟨fbt, hfbt⟩ := compare_team_total hta hga
  obtain ⟨fbp, hfbp⟩ := compare_ppg_total htp hgp
  have hall : compare_players t g =
      .ok ⟨fbt, compare_division t g, compare_conference t g, compare_age t g,
        compare_height t g, compare_position t g, compare_jersey t g, fbp⟩ := by
    simp only [compare_players, hfbt, hfbp, bind, Except.bind, pure, Except.pure]
  exact ⟨_, hall⟩

theorem compare_total_on_typed_records_witness :
    isOkE (compare_players W3t W3g) = true := by
  obtain ⟨c, hc⟩ :=
    compare_total_on_typed_records W3t W3g (by decide) (by decide) (by decide) (by decide)
  rw [hc]
  rfl

theorem ordinal_status_iff {α : Type} [LinearOrder α] (a b : α) (res : String)
    (h : res = if a = b then "correct" else if b < a then "higher" else "lower") :
    (res = "correct" ↔ b = a) ∧ (res = "higher" ↔ b < a) ∧ (res = "lower" ↔ a < b) := by
  subst h
  by_cases h1 : a = b
  · subst h1
    rw [if_pos rfl]
    refine ⟨by simp, ?_, ?_⟩
    · constructor
      · intro hh; exact absurd hh (by decide)
      · intro hh; exact absurd hh (lt_irrefl a)
    · constructor
      · intro hh; exact absurd hh (by decide)
      · intro hh; exact absurd hh (lt_irrefl a)
  · rw [if_neg h1]
    by_cases h2 : b < a
    · rw [if_pos h2]
      refine ⟨?_, by simp [h2], ?_⟩
      · constructor
        · intro hh; exact absurd hh (by decide)
        · intro hh; exact absurd hh.symm h1
      · constructor
        · intro hh; exact absurd hh (by decide)
        · intro hh; exact absurd h2 (lt_asymm hh)
    · rw [if_neg h2]
      have h3 : a < b := lt_of_le_of_ne (not_lt.mp h2) h1
      refine ⟨?_, ?_, by simp [h3]⟩
      · constructor
        · intro hh; exact absurd hh (by decide)
        · intro hh; exact absurd hh.symm h1
      · constructor
        · intro hh; exact absurd hh (by decide)
        · intro hh; exact absurd hh h2

theorem compare_age_status (t g : Player) (a b : Int) (ha : t.age = some a)
    (hb : g.age = some b) :
    (compare_age t g).status =
      if a = b then "correct" else if b < a then "higher" else "lower" := by
  simp only [compare_age, ha, hb, apply_ite Feedback.status]

theorem compare_jersey_status (t g : Player) (a b : Int) (ha : t.jersey_number = some a)
    (hb : g.jersey_number = some b) :
    (compare_jersey t g).status =
      if a = b then "correct" else if b < a then "higher" else "lower" := by
  simp only [compare_jersey, ha, hb, apply_ite Feedback.status]

theorem compare_ppg_ok (t g : Player) (p q : Rat) (hp : getQ t.ppg 0 = some p)
    (hq : getQ g.ppg 0 = some q) :
    compare_ppg t g = .ok ⟨"ppg", pvQ (some q), pvQ (some p),
      if p = q then "correct" else if q < p then "higher" else "lower"⟩ := by
  simp only [compare_ppg, hp, hq, pyEqQ, pyLtQ, bind, Except.bind, pure, Except.pure]
  by_cases hpq : p = q
  · simp [hpq]
  · by_cases hql : q < p
    · simp [hpq, hql]
    · simp [hpq, hql]

theorem ordinal_feedback_characterization (t g : Player) :
    (∀ a b : Int, t.age = some a → g.age = some b →
      (((compare_age t g).status = "correct" ↔ b = a) ∧
       ((compare_age t g).status = "higher" ↔ b < a) ∧
       ((compare_age t g).status = "lower" ↔ a < b))) ∧
    (∀ a b : Int, t.jersey_number = some a → g.jersey_number = some b →
      (((compare_jersey t g).status = "correct" ↔ b = a) ∧
       ((compare_jersey t g).status = "higher" ↔ b < a) ∧
       ((compare_jersey t g).status = "lower" ↔ a < b))) ∧
    (∀ p q : Rat, getQ t.ppg 0 = some p → getQ g.ppg 0 = some q →
      ∃ fb, compare_ppg t g = .ok fb ∧
        ((fb.status = "correct" ↔ q = p) ∧ (fb.status = "higher" ↔ q < p) ∧
         (fb.status = "lower" ↔ p < q) ∧ fb.status ≠ "incorrect")) := by
  refine ⟨fun a b ha hb => ?_, fun a b ha hb => ?_, fun p q hp hq => ?_⟩
  · exact ordinal_status_iff a b _ (compare_age_status t g a b ha hb)
  · exact ordinal_status_iff a b _ (compare_jersey_status t g a b ha hb)
  · refine ⟨_, compare_ppg_ok t g p q hp hq, ?_⟩
    have h := ordinal_status_iff p q
      (if p = q then "correct" else if q < p then "higher" else "lower") rfl
    refine ⟨h.1, h.2.1, h.2.2, ?_⟩
    by_cases h1 : p = q
    · simp [h1]
    · by_cases h2 : q < p
      · simp [h1, h2]
      · simp [h1, h2]

theorem ordinal_feedback_characterization_witness :
    (compare_age T4 G4).status = "higher" ∧ (compare_jersey T4 G4).status = "lower" ∧
    statusOf (compare_ppg T4 G4) = some "lower" := by
  have h := ordinal_feedback_characterization T4 G4
  refine ⟨(h.1 39 35 rfl rfl).2.1.mpr (by norm_num),
    (h.2.1 23 30 rfl rfl).2.2.mpr (by norm_num), ?_⟩
  obtain ⟨fb, hfb, hi⟩ := h.2.2 25 26 rfl rfl
  rw [hfb]
  simp only [statusOf]
  rw [hi.2.2.1.mpr (by norm_num)]

theorem equal_unparseable_heights_refute_claim :
    (compare_height T5 G5).status = "correct" ∧
    heightClaimStatus "abc" "abc" = "incorrect" ∧
    (compare_height T5 G5).status ≠ heightClaimStatus "abc" "abc" := by
  decide

theorem height_feedback_characterization (t g : Player) (th gh : String)
    (ht : t.height = .val th) (hg : g.height = .val gh) :
    (compare_height t g).status = heightAmendedStatus th gh := by
  simp only [compare_height, ht, hg, getS, heightAmendedStatus]
  by_cases h1 : th = "" ∨ gh = ""
  · simp [h1]
  · simp only [if_neg h1]
    by_cases h2 : th = gh
    · simp [h2]
    · simp only [if_neg h2]
      cases hti : height_to_inches th <;> cases hgi : height_to_inches gh <;>
        simp [hti, hgi, apply_ite Feedback.status]

theorem height_feedback_characterization_witness :
    (compare_height T4 G4).status = heightAmendedStatus "6-9" "6-2" ∧
    heightAmendedStatus "6-9" "6-2" = "higher" :=
  ⟨height_feedback_characterization T4 G4 "6-9" "6-2" rfl rfl, by decide⟩

theorem upperStr_eq_empty_iff {s : String} : upperStr s = "" ↔ s = "" := by
  rw [String.ext_iff, String.ext_iff]
  show s.data.map Char.toUpper = ([] : List Char) ↔ s.data = ([] : List Char)
  cases s.data <;> simp

theorem empty_positions_refute_claim :
    ¬ (((compare_position T6 G6).status = "correct") ↔ upperStr "" = upperStr "") := by
  decide

theorem position_feedback_characterization (t g : Player) (tp gp : String)
    (ht : t.position = .val tp) (hg : g.position = .val gp) :
    ((tp = "" ∨ gp = "") → (compare_position t g).status = "incorrect") ∧
    (tp ≠ "" → gp ≠ "" →
      (((compare_position t g).status = "correct" ↔ upperStr tp = upperStr gp) ∧
       ((compare_position t g).status = "partial" ↔ (upperStr tp ≠ upperStr gp ∧
         ∃ grp, positionGroup (upperStr tp) = some grp ∧
           positionGroup (upperStr gp) = some grp)) ∧
       ((compare_position t g).status = "incorrect" ↔ (upperStr tp ≠ upperStr gp ∧
         ¬ ∃ grp, positionGroup (upperStr tp) = some grp ∧
           positionGroup (upperStr gp) = some grp)))) := by
  constructor
  · intro h
    rcases h with h | h <;> subst h <;>
      simp [compare_position, ht, hg, getS, truthyUpper]
  · intro htp hgp
    have hu1 : truthyUpper (some tp) = upperStr tp := by simp [truthyUpper, htp]
    have hu2 : truthyUpper (some gp) = upperStr gp := by simp [truthyUpper, hgp]
    have hne1 : upperStr tp ≠ "" := fun hh => htp (upperStr_eq_empty_iff.mp hh)
    have hne2 : upperStr gp ≠ "" := fun hh => hgp (upperStr_eq_empty_iff.mp hh)
    have hst : (compare_position t g).status =
        (if upperStr tp = upperStr gp then "correct"
         else
           match positionGroup (upperStr tp), positionGroup (upperStr gp) with
           | some a, some b => if a = b then "partial" else "incorrect"
           | _, _ => "incorrect") := by
      simp only [compare_position, ht, hg, getS, hu1, hu2]
      rw [if_neg (by simp [hne1, hne2])]
      by_cases hciq : upperStr tp = upperStr gp
      · simp [hciq]
      · simp only [if_neg hciq]
        cases hgt : positionGroup (upperStr tp) <;>
          cases hgg : positionGroup (upperStr gp) <;>
            simp [apply_ite Feedback.status]
    rw [hst]
    by_cases hciq : upperStr tp = upperStr gp
    · rw [if_pos hciq]
      refine ⟨by simp [hciq], ?_, ?_⟩
      · constructor
        · intro hh; exact absurd hh (by decide)
        · intro hh; exact absurd hciq hh.1
      · constructor
        · intro hh; exact absurd hh (by decide)
        · intro hh; exact absurd hciq hh.1
    · rw [if_neg hciq]
      cases hgt : positionGroup (upperStr tp) with
      | none =>
        refine ⟨by simp [hciq], ?_, ?_⟩
        · simp
        · simp [hciq]
      | some a =>
        cases hgg : positionGroup (upperStr gp) with
        | none =>
          refine ⟨by simp [hciq], ?_, ?_⟩
          · simp
          · simp [hciq]
        | some b =>
          dsimp only
          by_cases hab : a = b
          · subst hab
            rw [if_pos rfl]
            refine ⟨by simp [hciq], ?_, ?_⟩
            · simp [hciq]
            · constructor
              · intro hh; exact absurd hh (by decide)
              · intro hh; exact absurd ⟨a, rfl, rfl⟩ hh.2
          · rw [if_neg hab]
            refine ⟨by simp [hciq], ?_, ?_⟩
            · constructor
              · intro hh; exact absurd hh (by decide)
              · intro hh
                obtain ⟨grp, h1, h2⟩ := hh.2
                rw [Option.some_inj] at h1 h2
                exact absurd (h1.trans h2.symm) hab
            · constructor
              · intro hh
                refine ⟨hciq, ?_⟩
                rintro ⟨grp, h1, h2⟩
                rw [Option.some_inj] at h1 h2
                exact absurd (h1.trans h2.symm) hab
              · intro hh
                rfl

theorem position_feedback_characterization_witness :
    (compare_position T4 G6p).status = "partial" :=
  (((position_feedback_characterization T4 G6p "SF" "PF" rfl rfl).2
    (by decide) (by decide)).2.1).mpr
    ⟨by decide, ⟨"forward", by decide, by decide⟩⟩

theorem empty_teams_refute_claim : ¬ teamClaimHolds T7 G7 := by
  intro h
  have hfb := h ⟨"team", pvS (some ""), pvS (some ""), "incorrect"⟩ (by decide)
  have hcc : ("incorrect" : String) = "correct" := hfb.1.mpr (Or.inl rfl)
  exact absurd hcc (by decide)

theorem team_feedback_characterization (t g : Player)
    (hta : t.team_abbreviation ≠ .pynone) (hga : g.team_abbreviation ≠ .pynone) :
    ∃ fb, compare_team t g = .ok fb ∧
      ((fb.status = "correct" ↔
        (truthyLower (getS t.team "") ≠ "" ∧ truthyLower (getS g.team "") ≠ "" ∧
          (truthyLower (getS t.team "") = truthyLower (getS g.team "") ∨
            (lowerStr (teamAbbrevString t) ≠ "" ∧ lowerStr (teamAbbrevString g) ≠ "" ∧
              lowerStr (teamAbbrevString t) = lowerStr (teamAbbrevString g))))) ∧
       (fb.status = "correct" ∨ fb.status = "incorrect")) := by
  obtain ⟨sa, hsa⟩ := getS_of_ne_pynone hta ""
  obtain ⟨sb, hsb⟩ := getS_of_ne_pynone hga ""
  have hta' : teamAbbrevString t = sa := by simp [teamAbbrevString, hsa]
  have hgb' : teamAbbrevString g = sb := by simp [teamAbbrevString, hsb]
  simp only [compare_team]
  by_cases h1 : truthyLower (getS t.team "") = "" ∨ truthyLower (getS g.team "") = ""
  · rw [if_pos h1]
    refine ⟨_, rfl, ?_, Or.inr rfl⟩
    constructor
    · intro hh; exact absurd hh (by simp)
    · rintro ⟨hn1, hn2, _⟩
      rcases h1 with h1 | h1
      · exact absurd h1 hn1
      · exact absurd h1 hn2
  · push_neg at h1
    rw [if_neg (by simp [h1.1, h1.2])]
    by_cases h2 : truthyLower (getS t.team "") = truthyLower (getS g.team "")
    · rw [if_pos h2]
      refine ⟨_, rfl, ?_, Or.inl rfl⟩
      constructor
      · intro _; exact ⟨h1.1, h1.2, Or.inl h2⟩
      · intro _; rfl
    · rw [if_neg h2]
      rw [hsa, hsb]
      simp only [pyLower, bind, Except.bind]
      by_cases h3 : lowerStr sa ≠ "" ∧ lowerStr sb ≠ "" ∧ lowerStr sa = lowerStr sb
      · rw [if_pos h3]
        refine ⟨_, rfl, ?_, Or.inl rfl⟩
        constructor
        · intro _
          refine ⟨h1.1, h1.2, Or.inr ?_⟩
          rw [hta', hgb']
          exact h3
        · intro _; rfl
      · rw [if_neg h3]
        refine ⟨_, rfl, ?_, Or.inr rfl⟩
        constructor
        · intro hh; exact absurd hh (by simp)
        · rintro ⟨hn1, hn2, hor⟩
          rcases hor with hor | hor
          · exact absurd hor h2
          · rw [hta', hgb'] at hor
            exact absurd hor h3

theorem team_feedback_characterization_witness :
    statusOf (compare_team T7w G7w) = some "correct" := by
  obtain ⟨fb, hfb, hiff, _⟩ := team_feedback_characterization T7w G7w (by decide) (by decide)
  rw [hfb]
  simp only [statusOf]
  rw [hiff.mpr ⟨by decide, by decide, Or.inr ⟨by decide, by decide, by decide⟩⟩]

theorem make_guess_ok_eq {e : WordleEngine} {g : Player} {r : GuessResult}
    {e' : WordleEngine} (h : make_guess e g = (Except.ok r, e')) :
    e'.guesses = e.guesses ++ [r] ∧ r.guess_number = e.guesses.length + 1 := by
  unfold make_guess at h
  by_cases hb : e.max_guesses ≤ e.guesses.length
  · rw [if_pos hb] at h
    simp at h
  · rw [if_neg hb] at h
    cases hc : compare_players e.target_player g with
    | error err =>
      rw [hc] at h
      simp at h
    | ok c =>
      rw [hc] at h
      dsimp only at h
      simp only [Prod.mk.injEq, Except.ok.injEq] at h
      obtain ⟨h1, h2⟩ := h
      subst h1
      subst h2
      exact ⟨rfl, rfl⟩

theorem history_append_only_and_guess_numbers :
    (∀ (e : WordleEngine) (g : Player) (r : GuessResult) (e' : WordleEngine),
      make_guess e g = (Except.ok r, e') →
        e'.guesses = e.guesses ++ [r] ∧ r.guess_number = e.guesses.length + 1) ∧
    (∀ e : WordleEngine, Reachable e → ∀ i : Nat, ∀ h : i < e.guesses.length,
      (e.guesses.get ⟨i, h⟩).guess_number = i + 1) := by
  refine ⟨fun e g r e' h => make_guess_ok_eq h, ?_⟩
  intro e he
  induction he with
  | init t s =>
    intro i h
    simp [WordleEngine.init] at h
  | step hr hmk ih =>
    rename_i eprev gg rr enext
    intro i h
    obtain ⟨hap, hnum⟩ := make_guess_ok_eq hmk
    rw [List.get_eq_getElem]
    simp only [hap] at h ⊢
    rw [List.length_append, List.length_singleton] at h
    by_cases hi : i < eprev.guesses.length
    · rw [List.getElem_append_left hi]
      have := ih i hi
      rw [List.get_eq_getElem] at this
      exact this
    · have hieq : i = eprev.guesses.length := by omega
      subst hieq
      rw [List.getElem_concat_length]
      exact hnum
      rfl

theorem history_append_only_witness :
    ((make_guess (WordleEngine.init T2 none) G2).2.guesses.map
      GuessResult.guess_number) = [0 + 1] := by
  rcases hmk : make_guess (WordleEngine.init T2 none) G2 with ⟨res, e1⟩
  have h2 : (make_guess (WordleEngine.init T2 none) G2).2 = e1 := by rw [hmk]
  rcases res with err | r
  · have hok : isOkE (make_guess (WordleEngine.init T2 none) G2).1 = true := by decide
    rw [hmk] at hok
    simp [isOkE] at hok
  · have hreach : Reachable e1 := Reachable.step (Reachable.init T2 none) hmk
    obtain ⟨hap, _⟩ := make_guess_ok_eq hmk
    have hg1 : e1.guesses = [r] := by simpa [WordleEngine.init] using hap
    have h0 : 0 < e1.guesses.length := by rw [hg1]; simp
    have hnum := history_append_only_and_guess_numbers.2 e1 hreach 0 h0
    have hget : e1.guesses.get ⟨0, h0⟩ = r := by
      rw [List.get_eq_getElem]
      simp only [hg1, List.getElem_cons_zero]
    rw [hget] at hnum
    show List.map GuessResult.guess_number e1.guesses = [0 + 1]
    rw [hg1]
    simp [hnum]
